import Mathlib

/-!
Verification of the CareerMate chatbot core (src/app.py): intent
classification, the chunked translator, the response catalog and the
chat assembly.  Python strings are modelled as Lean `String`
(sequences of Unicode scalar values, matching Python's code-point
semantics for `len` and slicing); the external translation service is
modelled as an oracle `String → String → Option String`, where `none`
collapses every failure mode of the HTTP call (non-200 status,
malformed payload, missing field, timeout, exception).
-/

/-- Python's whitespace set for `str.strip` / `str.split` restricted to the
ASCII whitespace characters (space, tab, newline, carriage return, vertical
tab, form feed). -/
def pyIsSpace (c : Char) : Bool :=
  c == ' ' || c == '\t' || c == '\n' || c == '\r' || c == Char.ofNat 11 || c == Char.ofNat 12

/-- Python's `str.strip()`: remove leading and trailing whitespace. -/
def pyStrip (s : String) : String :=
  String.mk (((s.data.dropWhile pyIsSpace).reverse.dropWhile pyIsSpace).reverse)

/-- Python's `str.lower()` restricted to ASCII letters; every keyword in the
classifier's tables is either already lower-case ASCII or in a caseless
script, so this coincides with Python on the inputs that matter. -/
def pyLower (s : String) : String :=
  String.mk (s.data.map Char.toLower)

/-- Splitting a character list at every non-overlapping occurrence of a
non-empty separator, Python's `s.split(sep)`.  The fuel argument makes the
recursion structural (each step consumes at least one character, so fuel
`l.length + 1` never runs out). -/
def splitSepAux (sep : List Char) : Nat → List Char → List (List Char)
  | _, [] => [[]]
  | 0, l => [l]
  | fuel + 1, c :: rest =>
    if sep.isPrefixOf (c :: rest) then
      [] :: splitSepAux sep fuel (List.drop sep.length (c :: rest))
    else
      match splitSepAux sep fuel rest with
      | [] => [[c]]
      | piece :: ps => (c :: piece) :: ps

/-- Python's `s.split(sep)` for a non-empty separator string. -/
def pySplitOn (s sep : String) : List String :=
  (splitSepAux sep.data (s.data.length + 1) s.data).map String.mk

/-- Replacing every non-overlapping occurrence of a non-empty pattern,
Python's `s.replace(pat, repl)`, with the same structural fuel. -/
def replaceSepAux (pat repl : List Char) : Nat → List Char → List Char
  | _, [] => []
  | 0, l => l
  | fuel + 1, c :: rest =>
    if pat.isPrefixOf (c :: rest) then
      repl ++ replaceSepAux pat repl fuel (List.drop pat.length (c :: rest))
    else c :: replaceSepAux pat repl fuel rest

/-- Python's `s.replace(pat, repl)` for a non-empty pattern string. -/
def pyReplace (s pat repl : String) : String :=
  String.mk (replaceSepAux pat.data repl.data (s.data.length + 1) s.data)

/-- Splitting a character list at every character satisfying a predicate
(consecutive separators yield empty pieces). -/
def splitCharsAux (p : Char → Bool) : List Char → List (List Char)
  | [] => [[]]
  | c :: rest =>
    if p c then [] :: splitCharsAux p rest
    else
      match splitCharsAux p rest with
      | [] => [[c]]
      | piece :: ps => (c :: piece) :: ps

/-- Python's `' '.join(s.split())`: split on whitespace (dropping empty
pieces) and rejoin with single spaces.  Used by the chat endpoint to collapse
internal whitespace. -/
def pyCollapseWhitespace (s : String) : String :=
  String.intercalate " "
    (((splitCharsAux pyIsSpace s.data).map String.mk).filter (fun t => t ≠ ""))

/-- Substring containment on character lists: Python's `needle in hay`. -/
def listContainsSub (needle : List Char) : List Char → Bool
  | [] => needle.isEmpty
  | c :: rest => needle.isPrefixOf (c :: rest) || listContainsSub needle rest

/-- Python's `needle in hay` for strings. -/
def strIn (needle hay : String) : Bool :=
  listContainsSub needle.data hay.data

/-- Python's `any(word in message for word in words)`. -/
def anyKeyword (words : List String) (message : String) : Bool :=
  words.any (fun w => strIn w message)

/-- Keyword table for the greeting intent (src/app.py lines 141-145). -/
def greeting_words : List String :=
  ["hi", "hello", "hey", "start", "namaste", "namaskar", "hola", "bonjour",
   "नमस्ते", "नमस्कार", "ਸਤ ਸ੍ਰੀ ਅਕਾਲ", "ਨਮਸਕਾਰ",
   "ನಮಸ್ಕಾರ", "ನಮಸ್ತೆ", "vanakkam", "adaab"]

/-- Keyword table for the salary intent (src/app.py lines 147-151). -/
def salary_words : List String :=
  ["salary", "pay", "compensation", "money", "earning", "income", "wage",
   "वेतन", "तनख्वाह", "पैसा", "कमाई", "ਤਨਖਾਹ", "ਪੈਸਾ", "ਕਮਾਈ",
   "ಸಂಬಳ", "ದುಡ್ಡು", "ಕಮಾಯಿ", "पगार", "रुपया"]

/-- Keyword table for the skills intent (src/app.py lines 153-157). -/
def skills_words : List String :=
  ["skills", "learn", "study", "course", "training", "education", "skill",
   "कौशल", "सीखना", "अध्ययन", "पढ़ना", "ਸਿੱਖਣਾ", "ਹੁਨਰ", "ਸਿੱਖਿਆ",
   "ಕೌಶಲ್ಯ", "ಕಲಿಕೆ", "ಅಧ್ಯಯನ", "शिकणे", "कौशल्य"]

/-- Keyword table for the interview intent (src/app.py lines 159-163). -/
def interview_words : List String :=
  ["interview", "preparation", "questions", "tips", "prep", "question",
   "साक्षात्कार", "इंटरव्यू", "प्रश्न", "ਇੰਟਰਵਿਊ", "ਸਵਾਲ",
   "ಸಂದರ್ಶನ", "ಪ್ರಶ್ನೆ", "मुलाखत"]

/-- Keyword table for the job intent (src/app.py lines 165-169). -/
def job_words : List String :=
  ["job", "career", "work", "employment", "position", "role", "jobs",
   "नौकरी", "काम", "कैरियर", "रोजगार", "ਨੌਕਰੀ", "ਕੰਮ", "ਕਰੀਅਰ",
   "ಕೆಲಸ", "ನೌಕರಿ", "ಕ್ಯಾರಿಯರ್", "काम", "नोकरी"]

/-- Keyword table for the resume intent (src/app.py lines 171-174). -/
def resume_words : List String :=
  ["resume", "cv", "biodata", "profile", "bio",
   "बायोडाटा", "रिज्यूमे", "ਬਾਇਓਡਾਟਾ", "ರೆಸ್ಯೂಮೆ", "ಬಯೋಡಾಟಾ"]

/-- The intent classifier `detect_intent_multilingual` (src/app.py
lines 136-190): lower-case the message, then a cascade of substring tests in
the fixed order greeting, salary, skills, interview, job, resume; `default`
when nothing matches. -/
def detect_intent_multilingual (user_message : String) : String :=
  let message_lower := pyLower user_message
  if anyKeyword greeting_words message_lower then "greeting"
  else if anyKeyword salary_words message_lower then "salary"
  else if anyKeyword skills_words message_lower then "skills"
  else if anyKeyword interview_words message_lower then "interview"
  else if anyKeyword job_words message_lower then "job"
  else if anyKeyword resume_words message_lower then "resume"
  else "default"

/-- The spec's rule table: each intent with its KeywordSet, in the documented
priority order. -/
def INTENT_RULES : List (String × List String) :=
  [("greeting", greeting_words), ("salary", salary_words), ("skills", skills_words),
   ("interview", interview_words), ("job", job_words), ("resume", resume_words)]

/-- Spec-side classifier, written from the spec's words for the refinement
comparison: lower-case the message, walk the rule table in priority order,
return the first intent whose keyword set has a substring hit, else
`default`. -/
def specClassify (message : String) : String :=
  match INTENT_RULES.find? (fun r => anyKeyword r.2 (pyLower message)) with
  | some r => r.1
  | none => "default"

/-- The closed enumeration of intents. -/
def intentList : List String :=
  ["greeting", "salary", "skills", "interview", "job", "resume", "default"]

/-- C1: the classifier is total and deterministic with first-match-wins
priority: on every non-empty message it agrees with the spec's ordered
rule-table walk, returns one of the seven intents, and any message with a
greeting-keyword hit (in particular one that also has a salary-keyword hit)
is classified `greeting`. -/
theorem claim1_classifier_first_match (msg : String) (hne : msg ≠ "") :
    detect_intent_multilingual msg = specClassify msg ∧
    detect_intent_multilingual msg ∈ intentList ∧
    (anyKeyword greeting_words (pyLower msg) = true →
      detect_intent_multilingual msg = "greeting") := by
  unfold detect_intent_multilingual specClassify INTENT_RULES intentList
  cases h1 : anyKeyword greeting_words (pyLower msg) <;>
    cases h2 : anyKeyword salary_words (pyLower msg) <;>
      cases h3 : anyKeyword skills_words (pyLower msg) <;>
        cases h4 : anyKeyword interview_words (pyLower msg) <;>
          cases h5 : anyKeyword job_words (pyLower msg) <;>
            cases h6 : anyKeyword resume_words (pyLower msg) <;>
              simp [List.find?, h1, h2, h3, h4, h5, h6]

/-- C1 witness: "hi salary" contains both a greeting keyword and a salary
keyword and is classified `greeting`. -/
theorem claim1_witness :
    anyKeyword salary_words (pyLower "hi salary") = true ∧
    detect_intent_multilingual "hi salary" = "greeting" :=
  ⟨by decide, (claim1_classifier_first_match "hi salary" (by decide)).2.2 (by decide)⟩

/-- The external translation collaborator: given the (stripped) chunk text
and the two-letter target code, either a translated text or `none` for any
failure (non-200 status, malformed payload, missing field, timeout,
exception). -/
def Oracle : Type := String → String → Option String

/-- `translate_single_chunk` (src/app.py lines 51-71): whitespace-only text
is returned as is; otherwise the stripped text is sent to the service and
the translated text is returned on success, the original text on any
failure. -/
def translate_single_chunk (oracle : Oracle) (text target : String) : String :=
  if pyStrip text = "" then text
  else
    match oracle (pyStrip text) target with
    | some translated => translated
    | none => text

/-- The `lang_map` lookup with default (src/app.py lines 79-80):
`{'hi': 'hi', 'pa': 'pa', 'kn': 'kn', 'en': 'en'}.get(target_language, 'en')`. -/
def langMap (target_language : String) : String :=
  if target_language = "hi" ∨ target_language = "pa" ∨ target_language = "kn" ∨
     target_language = "en" then target_language
  else "en"

/-- The greedy bullet accumulation loop (src/app.py lines 99-108): keep
extending the current chunk with the next '•'-part while the result stays
within 250 characters, otherwise flush the current chunk (dropping it when
whitespace-only) and restart from the bullet part. -/
def bulletAccum (chunks : List String) (current : String) : List String → List String
  | [] => if pyStrip current = "" then chunks else chunks ++ [current]
  | part :: rest =>
    if (current ++ "•" ++ part).length ≤ 250 then
      bulletAccum chunks (current ++ "•" ++ part) rest
    else
      bulletAccum (if pyStrip current = "" then chunks else chunks ++ [current])
        ("•" ++ part) rest

/-- Chunks of an oversized paragraph containing bullet markers
(src/app.py lines 97-108): split on '•', seed the loop with the part before
the first bullet. -/
def bulletChunks (paragraph : String) : List String :=
  match pySplitOn paragraph "•" with
  | [] => []
  | p0 :: rest => bulletAccum [] p0 rest

/-- The greedy sentence accumulation loop (src/app.py lines 112-121): same
flush rule as the bullet loop, concatenating sentences directly. -/
def sentenceAccum (chunks : List String) (current : String) : List String → List String
  | [] => if pyStrip current = "" then chunks else chunks ++ [current]
  | s :: rest =>
    if (current ++ s).length ≤ 250 then sentenceAccum chunks (current ++ s) rest
    else sentenceAccum (if pyStrip current = "" then chunks else chunks ++ [current]) s rest

/-- Chunks of an oversized paragraph without bullets (src/app.py
lines 110-121): mark sentence boundaries by replacing ". " with ".|",
split on "|", then greedily accumulate. -/
def sentenceChunks (paragraph : String) : List String :=
  sentenceAccum [] "" (pySplitOn (pyReplace paragraph ". " ".|") "|")

/-- Per-paragraph chunking (src/app.py lines 92-121): a paragraph within the
250-character threshold is kept whole; otherwise bullet or sentence
splitting applies. -/
def chunksOfParagraph (p : String) : List String :=
  if p.length ≤ 250 then [p]
  else if strIn "•" p then bulletChunks p
  else sentenceChunks p

/-- The splitting step of `translate_text_smart` for text over the threshold
(src/app.py lines 87-121): split on blank lines, chunk each paragraph, and
concatenate the per-paragraph chunk lists in order (the Python loop appends
to one shared list). -/
def buildChunks (text : String) : List String :=
  ((pySplitOn text "\n\n").map chunksOfParagraph).flatten

/-- The body of `translate_text_smart` after the identity gate (src/app.py
lines 82-130): short text goes through a single service call; long text is
chunked, each non-whitespace chunk is translated independently, and the
results are rejoined with blank lines. -/
def translateBody (oracle : Oracle) (text target : String) : String :=
  if text.length ≤ 250 then translate_single_chunk oracle text target
  else
    String.intercalate "\n\n"
      (((buildChunks text).filter (fun c => pyStrip c ≠ "")).map
        (fun c => translate_single_chunk oracle c target))

/-- `translate_text_smart` (src/app.py lines 73-134): identity for target
'en' or whitespace-only input, otherwise the chunked pipeline with the
target code mapped through `langMap`. -/
def translate_text_smart (oracle : Oracle) (text target_language : String) : String :=
  if target_language = "en" ∨ pyStrip text = "" then text
  else translateBody oracle text (langMap target_language)

/-- An external service that fails on every call. -/
def failOracle : Oracle := fun _ _ => none

/-- A 302-character text with a sentence boundary: 200 letters a, ". ",
then 100 letters b. -/
def exampleLongText : String :=
  String.mk (List.replicate 200 'a') ++ ". " ++ String.mk (List.replicate 100 'b')

theorem translate_single_chunk_fail (text target : String) :
    translate_single_chunk failOracle text target = text := by
  unfold translate_single_chunk failOracle
  split <;> rfl

set_option maxRecDepth 16384 in
/-- C2 counterexample: with the service failing on every call, translating
the 302-character `exampleLongText` does not return it unchanged — the two
sentence chunks are rejoined with a blank line, so ". " becomes ".\n\n". -/
theorem claim2_counterexample :
    translate_text_smart failOracle exampleLongText "hi" ≠ exampleLongText := by
  decide

/-- C2 amended: with the service failing on every call the translator never
raises and every chunk falls back to its own original text; the overall
result is the input unchanged whenever the input is within the 250-character
threshold (or the identity gate applies), and in general it is the input's
chunks, whitespace-only chunks dropped, rejoined with blank lines. -/
theorem claim2_failing_service_fallback (text target : String) :
    (text.length ≤ 250 → translate_text_smart failOracle text target = text) ∧
    translate_text_smart failOracle text target =
      (if target = "en" ∨ pyStrip text = "" then text
       else if text.length ≤ 250 then text
       else String.intercalate "\n\n" ((buildChunks text).filter (fun c => pyStrip c ≠ ""))) := by
  have hbody : ∀ t tgt, translateBody failOracle t tgt =
      (if t.length ≤ 250 then t
       else String.intercalate "\n\n" ((buildChunks t).filter (fun c => pyStrip c ≠ ""))) := by
    intro t tgt
    unfold translateBody
    split
    · exact translate_single_chunk_fail t tgt
    · have hmap : ∀ (l : List String),
          l.map (fun c => translate_single_chunk failOracle c tgt) = l := by
        intro l
        induction l with
        | nil => rfl
        | cons a as ih =>
          rw [List.map_cons, translate_single_chunk_fail, ih]
      rw [hmap]
  constructor
  · intro hlen
    unfold translate_text_smart
    split
    · rfl
    · rw [hbody, if_pos hlen]
  · unfold translate_text_smart
    split
    · simp_all
    · simp_all [hbody]

/-- C2 witness for the amended short-text case. -/
theorem claim2_witness :
    translate_text_smart failOracle "hello world" "hi" = "hello world" :=
  (claim2_failing_service_fallback "hello world" "hi").1 (by decide)

/-- C4: translating to 'en' (the template language) or translating
empty/whitespace-only text is the identity, and no external call is made —
the result does not depend on the translation collaborator at all. -/
theorem claim4_identity (oracle : Oracle) (text target : String)
    (h : target = "en" ∨ pyStrip text = "") :
    translate_text_smart oracle text target = text ∧
    (∀ oracle2 : Oracle,
      translate_text_smart oracle text target = translate_text_smart oracle2 text target) := by
  constructor
  · unfold translate_text_smart
    rw [if_pos h]
  · intro oracle2
    unfold translate_text_smart
    rw [if_pos h, if_pos h]

/-- C4 witness: identity on target 'en' and on whitespace-only input, even
for an oracle that would translate everything. -/
theorem claim4_witness :
    translate_text_smart (fun _ _ => some "X") "hello" "en" = "hello" ∧
    translate_text_smart (fun _ _ => some "X") "  " "hi" = "  " :=
  ⟨(claim4_identity (fun _ _ => some "X") "hello" "en" (Or.inl rfl)).1,
   (claim4_identity (fun _ _ => some "X") "  " "hi" (Or.inr (by decide))).1⟩

/-- C10: for a non-empty, non-whitespace text and a target code outside
{'en', 'hi', 'pa', 'kn'}, the translator substitutes 'en' as the external
target code and still runs the translating body (for short text, a single
service call with code 'en'); the oracle's answer replaces the input, so the
identity path is not taken. -/
theorem claim10_unknown_code_calls_en (oracle : Oracle) (text target : String)
    (h1 : target ≠ "en") (h2 : target ≠ "hi") (h3 : target ≠ "pa") (h4 : target ≠ "kn")
    (h5 : pyStrip text ≠ "") :
    translate_text_smart oracle text target = translateBody oracle text "en" ∧
    (text.length ≤ 250 →
      translate_text_smart oracle text target = translate_single_chunk oracle text "en") ∧
    (text.length ≤ 250 →
      translate_text_smart (fun _ _ => some ("@" ++ text)) text target = "@" ++ text) ∧
    "@" ++ text ≠ text := by
  have hmap : langMap target = "en" := by
    unfold langMap
    rw [if_neg]
    intro hor
    rcases hor with h | h | h | h
    · exact h2 h
    · exact h3 h
    · exact h4 h
    · exact h1 h
  have hgate : ¬(target = "en" ∨ pyStrip text = "") := by
    intro hor
    rcases hor with h | h
    · exact h1 h
    · exact h5 h
  refine ⟨?_, ?_, ?_, ?_⟩
  · unfold translate_text_smart
    rw [if_neg hgate, hmap]
  · intro hlen
    unfold translate_text_smart translateBody
    rw [if_neg hgate, hmap, if_pos hlen]
  · intro hlen
    unfold translate_text_smart translateBody
    rw [if_neg hgate, hmap, if_pos hlen]
    unfold translate_single_chunk
    rw [if_neg h5]
  · intro heq
    have hlen := congrArg String.length heq
    have hone : ("@" : String).length = 1 := rfl
    rw [String.length_append, hone] at hlen
    omega

/-- C10 witness: target 'fr' is outside the table; a short text goes to the
service as an English-to-English request. -/
theorem claim10_witness :
    translate_text_smart failOracle "hello" "fr" = translate_single_chunk failOracle "hello" "en" :=
  (claim10_unknown_code_calls_en failOracle "hello" "fr" (by decide) (by decide)
    (by decide) (by decide) (by decide)).2.1 (by decide)

/-- The indivisible bullet-delimited parts of a paragraph: the part before
the first '•' and each '•'-prefixed part, exactly the pieces the bullet loop
may emit alone. -/
def bulletUnits (p : String) : List String :=
  match pySplitOn p "•" with
  | [] => []
  | p0 :: rest => p0 :: rest.map (fun part => "•" ++ part)

/-- The indivisible sentences of a paragraph: the pieces of the ". "-boundary
split, exactly the pieces the sentence loop may emit alone. -/
def sentenceUnits (p : String) : List String :=
  pySplitOn (pyReplace p ". " ".|") "|"

/-- The indivisible units of a paragraph under the splitting hierarchy: the
paragraph itself when within the threshold, else its bullet parts or its
sentences. -/
def unitsOfParagraph (p : String) : List String :=
  if p.length ≤ 250 then [p]
  else if strIn "•" p then bulletUnits p
  else sentenceUnits p

/-- The indivisible units of a whole text: units of each blank-line-separated
paragraph. -/
def unitsOf (text : String) : List String :=
  ((pySplitOn text "\n\n").map unitsOfParagraph).flatten

theorem bulletAccum_mem (U : List String) (parts : List String) :
    ∀ (chunks : List String) (current : String),
      (∀ c ∈ chunks, c.length ≤ 250 ∨ c ∈ U) →
      (current.length ≤ 250 ∨ current ∈ U) →
      (∀ part ∈ parts, ("•" ++ part) ∈ U) →
      ∀ c ∈ bulletAccum chunks current parts, c.length ≤ 250 ∨ c ∈ U := by
  induction parts with
  | nil =>
    intro chunks current hch hcur _ c hc
    unfold bulletAccum at hc
    split at hc
    · exact hch c hc
    · rcases List.mem_append.mp hc with h | h
      · exact hch c h
      · rw [List.mem_singleton.mp h]
        exact hcur
  | cons part rest ih =>
    intro chunks current hch hcur hparts c hc
    unfold bulletAccum at hc
    split at hc
    · next hlen =>
      exact ih chunks (current ++ "•" ++ part) hch (Or.inl hlen)
        (fun q hq => hparts q (List.mem_cons_of_mem _ hq)) c hc
    · refine ih _ ("•" ++ part) ?_ (Or.inr (hparts part (List.mem_cons_self _ _)))
        (fun q hq => hparts q (List.mem_cons_of_mem _ hq)) c hc
      split
      · exact hch
      · intro d hd
        rcases List.mem_append.mp hd with h | h
        · exact hch d h
        · rw [List.mem_singleton.mp h]
          exact hcur

theorem sentenceAccum_mem (U : List String) (parts : List String) :
    ∀ (chunks : List String) (current : String),
      (∀ c ∈ chunks, c.length ≤ 250 ∨ c ∈ U) →
      (current.length ≤ 250 ∨ current ∈ U) →
      (∀ s ∈ parts, s ∈ U) →
      ∀ c ∈ sentenceAccum chunks current parts, c.length ≤ 250 ∨ c ∈ U := by
  induction parts with
  | nil =>
    intro chunks current hch hcur _ c hc
    unfold sentenceAccum at hc
    split at hc
    · exact hch c hc
    · rcases List.mem_append.mp hc with h | h
      · exact hch c h
      · rw [List.mem_singleton.mp h]
        exact hcur
  | cons s rest ih =>
    intro chunks current hch hcur hparts c hc
    unfold sentenceAccum at hc
    split at hc
    · next hlen =>
      exact ih chunks (current ++ s) hch (Or.inl hlen)
        (fun q hq => hparts q (List.mem_cons_of_mem _ hq)) c hc
    · refine ih _ s ?_ (Or.inr (hparts s (List.mem_cons_self _ _)))
        (fun q hq => hparts q (List.mem_cons_of_mem _ hq)) c hc
      split
      · exact hch
      · intro d hd
        rcases List.mem_append.mp hd with h | h
        · exact hch d h
        · rw [List.mem_singleton.mp h]
          exact hcur

theorem bulletChunks_mem (p : String) :
    ∀ c ∈ bulletChunks p, c.length ≤ 250 ∨ c ∈ bulletUnits p := by
  intro c hc
  unfold bulletChunks at hc
  unfold bulletUnits
  rcases hsplit : pySplitOn p "•" with _ | ⟨p0, rest⟩
  · rw [hsplit] at hc
    simp at hc
  · rw [hsplit] at hc
    exact bulletAccum_mem (p0 :: rest.map (fun part => "•" ++ part)) rest [] p0
      (by intro d hd; simp at hd)
      (Or.inr (List.mem_cons_self _ _))
      (fun part hpart => List.mem_cons_of_mem _ (List.mem_map.mpr ⟨part, hpart, rfl⟩))
      c hc

theorem sentenceChunks_mem (p : String) :
    ∀ c ∈ sentenceChunks p, c.length ≤ 250 ∨ c ∈ sentenceUnits p := by
  intro c hc
  unfold sentenceChunks at hc
  exact sentenceAccum_mem (sentenceUnits p) (sentenceUnits p) [] ""
    (by intro d hd; simp at hd)
    (Or.inl (by decide))
    (fun s hs => hs)
    c hc

theorem chunksOfParagraph_mem (p : String) :
    ∀ c ∈ chunksOfParagraph p, c.length ≤ 250 ∨ c ∈ unitsOfParagraph p := by
  intro c hc
  unfold chunksOfParagraph at hc
  unfold unitsOfParagraph
  split at hc
  · next hlen =>
    rw [if_pos hlen]
    rw [List.mem_singleton.mp hc]
    exact Or.inl hlen
  · next hlen =>
    rw [if_neg hlen]
    split at hc
    · next hbul =>
      rw [if_pos hbul]
      exact bulletChunks_mem p c hc
    · next hbul =>
      rw [if_neg hbul]
      exact sentenceChunks_mem p c hc

/-- C3: for text over the 250-character threshold, every chunk produced by
the splitting step is within 250 characters, or else it is a single
indivisible unit (a whole paragraph, a bullet-delimited part, or a
sentence) kept whole. -/
theorem claim3_chunk_invariant (text : String) (hlong : 250 < text.length) :
    ∀ c ∈ buildChunks text, c.length ≤ 250 ∨ c ∈ unitsOf text := by
  intro c hc
  unfold buildChunks at hc
  rw [List.mem_flatten] at hc
  rcases hc with ⟨l, hl, hcl⟩
  rw [List.mem_map] at hl
  rcases hl with ⟨p, hp, rfl⟩
  rcases chunksOfParagraph_mem p c hcl with h | h
  · exact Or.inl h
  · right
    unfold unitsOf
    rw [List.mem_flatten]
    exact ⟨unitsOfParagraph p, List.mem_map.mpr ⟨p, hp, rfl⟩, h⟩

set_option maxRecDepth 16384 in
/-- C3 witness: in the 302-character `exampleLongText`, the first produced
chunk (the 201-character first sentence) satisfies the invariant. -/
theorem claim3_witness :
    (String.mk (List.replicate 200 'a') ++ ".").length ≤ 250 ∨
      (String.mk (List.replicate 200 'a') ++ ".") ∈ unitsOf exampleLongText :=
  claim3_chunk_invariant exampleLongText (by decide)
    (String.mk (List.replicate 200 'a') ++ ".") (by decide)

/-- The greeting response template (src/app.py lines 204-214). -/
def greetingResponse : String :=
  "👋 **Hello! I'm CareerMate!**\n\nI help with:\n• Job search & salaries\n• Tech skills & learning\n• Interview preparation\n• Resume optimization\n\nAsk me about salaries, skills, or jobs!\n\nWhat can I help you with?"

/-- The salary response template (src/app.py lines 217-230). -/
def salaryResponse : String :=
  "💰 **Tech Salaries 2024-2025**\n\n**Software Engineer:**\nEntry: $75k-$120k | Mid: $110k-$180k | Senior: $160k-$350k\n\n**AI/ML Engineer:**\nEntry: $95k-$130k | Mid: $140k-$200k | Senior: $200k-$400k\n\n**Data Scientist:**\nEntry: $85k-$120k | Mid: $120k-$180k | Senior: $180k-$300k\n\n**Location boost:** SF +35%, NYC +25%, Remote -15%\n\nGet multiple offers and negotiate!"

/-- The skills response template (src/app.py lines 233-245). -/
def skillsResponse : String :=
  "🎓 **Hottest Tech Skills 2024-2025**\n\n**Programming:** Python (AI/ML) • JavaScript (Web) • SQL (Essential)\n\n**AI/ML:** ChatGPT integration • PyTorch • Vector databases\n\n**Cloud:** AWS • Docker • Kubernetes\n\n**Learning plan:** Pick Python → Choose AI/Web/Cloud → Build 3 projects\n\n**Free resources:** freeCodeCamp.org, Fast.ai, AWS Educate\n\nWhich area interests you?"

/-- The interview response template (src/app.py lines 248-259). -/
def interviewResponse : String :=
  "🎤 **Interview Prep Essentials**\n\n**Top 3 questions:**\n1. \"Tell me about yourself\" → Present + Impact + Future\n2. \"Why this job?\" → Research company + Show excitement  \n3. \"Biggest weakness?\" → Real weakness + Improvement + Results\n\n**Technical prep:** LeetCode Easy (50) → Medium (100)\n\n**Tips:** Apply Mon-Wed, research interviewer, prepare 5 questions\n\nNeed company-specific help?"

/-- The job response template (src/app.py lines 262-275). -/
def jobResponse : String :=
  "🔍 **Job Search Links**\n\n**AI/ML Jobs:**\n[AI Engineer Jobs](https://linkedin.com/jobs/search/?keywords=AI%20engineer)\n[Data Scientist Jobs](https://linkedin.com/jobs/search/?keywords=data%20scientist)\n\n**Software Jobs:**\n[Software Engineer Jobs](https://linkedin.com/jobs/search/?keywords=software%20engineer)\n[Full Stack Developer Jobs](https://linkedin.com/jobs/search/?keywords=full%20stack%20developer)\n\n**Remote Jobs:**\n[Remote Software Jobs](https://linkedin.com/jobs/search/?keywords=software%20engineer&location=Remote)\n\nApply within 24hrs, follow up in 1 week!"

/-- The resume response template (src/app.py lines 278-288). -/
def resumeResponse : String :=
  "📄 **Resume Optimization**\n\n**Structure:** Header → Summary → Experience → Skills\n\n**Writing:** Action verbs + Quantified results + Job keywords\n\n**ATS-friendly:** PDF format, simple layout, standard fonts\n\n**Test:** Upload to Jobscan.co for ATS score\n\nWant help with specific sections?"

/-- The default response template (src/app.py lines 291-304), an f-string
echoing the user message. -/
def defaultResponse (user_message : String) : String :=
  "🤖 **Got it: \"" ++ user_message ++ "\"**\n\nI help with:\n💼 Job search & career strategy\n💰 Salary data & negotiation  \n🎓 Tech skills & learning\n🎯 Interview preparation\n\n**Quick examples:**\n\"Software engineer salary\"\n\"Skills for AI jobs\"  \n\"Google interview prep\"\n\nWhat do you need help with?"

/-- The response-template lookup of `get_ai_response` (src/app.py
lines 203-304): the if/elif cascade on the detected intent. -/
def templateFor (intent user_message : String) : String :=
  if intent = "greeting" then greetingResponse
  else if intent = "salary" then salaryResponse
  else if intent = "skills" then skillsResponse
  else if intent = "interview" then interviewResponse
  else if intent = "job" then jobResponse
  else if intent = "resume" then resumeResponse
  else defaultResponse user_message

/-- `get_ai_response` (src/app.py lines 192-316): detect the intent, pick
the English template, translate when the language is not 'en' (a
translation failure inside the translator already falls back to the
English text, so the surrounding try/except is the identity). -/
def get_ai_response (oracle : Oracle) (user_message language : String) : String :=
  if language ≠ "en" then
    translate_text_smart oracle
      (templateFor (detect_intent_multilingual user_message) user_message) language
  else templateFor (detect_intent_multilingual user_message) user_message

/-- The suggestion lookup of `generate_smart_suggestions` (src/app.py
lines 321-330): the if/elif cascade on the intent; greeting, job and
default all land in the final else. -/
def suggestionsForIntent (intent : String) : List String :=
  if intent = "skills" then
    ["🐍 Python learning roadmap", "🤖 AI/ML fundamentals", "☁️ Cloud platforms guide", "💻 Full-stack development"]
  else if intent = "salary" then
    ["💼 Entry-level tech salaries", "🏢 Big tech compensation", "📍 Location-based pay", "💰 Salary negotiation tips"]
  else if intent = "interview" then
    ["❓ Common tech questions", "💡 STAR method examples", "🎯 System design basics", "👔 Behavioral interview prep"]
  else if intent = "resume" then
    ["📄 Upload my resume now", "✨ Resume formatting tips", "🎯 ATS optimization guide", "💼 Cover letter tips"]
  else
    ["💼 Career guidance", "📈 Skill development", "💰 Salary information", "🎤 Interview preparation"]

/-- `generate_smart_suggestions` (src/app.py lines 318-330): the suggestion
list depends only on the intent detected from the user message; the
`ai_response` and `language` parameters are unused in the source body. -/
def generate_smart_suggestions (user_message ai_response language : String) : List String :=
  suggestionsForIntent (detect_intent_multilingual user_message)

set_option maxRecDepth 16384 in
/-- C6: for every intent of the closed enumeration the suggestion lookup
returns exactly 4 items and the response-template lookup is non-empty. -/
theorem claim6_catalog_shape (intent user_message : String) (h : intent ∈ intentList) :
    (suggestionsForIntent intent).length = 4 ∧ 0 < (templateFor intent user_message).length := by
  simp only [intentList, List.mem_cons, List.not_mem_nil, or_false] at h
  rcases h with rfl | rfl | rfl | rfl | rfl | rfl | rfl
  · exact ⟨by decide, show 0 < greetingResponse.length by decide⟩
  · exact ⟨by decide, show 0 < salaryResponse.length by decide⟩
  · exact ⟨by decide, show 0 < skillsResponse.length by decide⟩
  · exact ⟨by decide, show 0 < interviewResponse.length by decide⟩
  · exact ⟨by decide, show 0 < jobResponse.length by decide⟩
  · exact ⟨by decide, show 0 < resumeResponse.length by decide⟩
  · refine ⟨by decide, ?_⟩
    show 0 < (defaultResponse user_message).length
    unfold defaultResponse
    rw [String.length_append, String.length_append]
    have hpre : ("🤖 **Got it: \"" : String).length = 13 := by decide
    omega

/-- C6 witness: the default intent has 4 suggestions and a non-empty
template. -/
theorem claim6_witness :
    (suggestionsForIntent "default").length = 4 ∧ 0 < (templateFor "default" "hello").length :=
  claim6_catalog_shape "default" "hello" (by decide)

set_option maxRecDepth 16384 in
/-- C7: for the message "hi" with language 'en' the intent is `greeting`,
the response is the greeting template verbatim for every oracle (so no
translation is applied), and the suggestions are the 4 items served for the
greeting intent. -/
theorem claim7_hi_english (oracle : Oracle) :
    detect_intent_multilingual "hi" = "greeting" ∧
    get_ai_response oracle "hi" "en" = greetingResponse ∧
    (∀ oracle2 : Oracle, get_ai_response oracle "hi" "en" = get_ai_response oracle2 "hi" "en") ∧
    generate_smart_suggestions "hi" (get_ai_response oracle "hi" "en") "en" =
      ["💼 Career guidance", "📈 Skill development", "💰 Salary information", "🎤 Interview preparation"] ∧
    (generate_smart_suggestions "hi" (get_ai_response oracle "hi" "en") "en").length = 4 :=
  ⟨by decide, rfl, fun _ => rfl, rfl, rfl⟩

set_option maxRecDepth 65536 in
/-- C5 counterexample: the message "hi रिज्यूमे" contains a resume keyword in
a non-English script, yet with language 'hi' and a failing service the
response is the greeting template (the greeting keyword "hi" wins by
priority), not the resume template, and the suggestions are not the resume
suggestions. -/
theorem claim5_counterexample :
    anyKeyword resume_words (pyLower "hi रिज्यूमे") = true ∧
    get_ai_response failOracle "hi रिज्यूमे" "hi" = greetingResponse ∧
    greetingResponse ≠ resumeResponse ∧
    generate_smart_suggestions "hi रिज्यूमे" (get_ai_response failOracle "hi रिज्यूमे" "hi") "hi" ≠
      ["📄 Upload my resume now", "✨ Resume formatting tips", "🎯 ATS optimization guide", "💼 Cover letter tips"] := by
  refine ⟨by decide, by decide, by decide, by decide⟩

set_option maxRecDepth 65536 in
/-- C5 amended: for any message that contains a resume keyword and no
keyword of any higher-priority intent (greeting, salary, skills, interview,
job), with language 'hi' and the service failing on every call, the response
is the English resume template unchanged and the suggestions are the 4
resume suggestions. -/
theorem claim5_resume_fallback (user_message r : String)
    (hres : anyKeyword resume_words (pyLower user_message) = true)
    (hg : anyKeyword greeting_words (pyLower user_message) = false)
    (hsal : anyKeyword salary_words (pyLower user_message) = false)
    (hsk : anyKeyword skills_words (pyLower user_message) = false)
    (hiv : anyKeyword interview_words (pyLower user_message) = false)
    (hjob : anyKeyword job_words (pyLower user_message) = false) :
    get_ai_response failOracle user_message "hi" = resumeResponse ∧
    generate_smart_suggestions user_message r "hi" =
      ["📄 Upload my resume now", "✨ Resume formatting tips", "🎯 ATS optimization guide", "💼 Cover letter tips"] ∧
    (generate_smart_suggestions user_message r "hi").length = 4 := by
  have hintent : detect_intent_multilingual user_message = "resume" := by
    simp [detect_intent_multilingual, hres, hg, hsal, hsk, hiv, hjob]
  have htrans : translate_text_smart failOracle resumeResponse "hi" = resumeResponse := by
    decide
  refine ⟨?_, ?_, ?_⟩
  · unfold get_ai_response
    rw [hintent, if_pos (by decide : ("hi" : String) ≠ "en")]
    show translate_text_smart failOracle resumeResponse "hi" = resumeResponse
    exact htrans
  · unfold generate_smart_suggestions
    rw [hintent]
    decide
  · unfold generate_smart_suggestions
    rw [hintent]
    decide

set_option maxRecDepth 65536 in
/-- C5 witness: the Devanagari resume keyword alone, with language 'hi' and
a failing service, yields the English resume template. -/
theorem claim5_witness :
    get_ai_response failOracle "रिज्यूमे" "hi" = resumeResponse :=
  (claim5_resume_fallback "रिज्यूमे" "" (by decide) (by decide) (by decide)
    (by decide) (by decide) (by decide)).1

/-- The JSON payload of the chat endpoint, with the HTTP status code; the
`timestamp` field carries real time and is not modelled. -/
structure ChatResponse where
  success : Bool
  error : Option String
  response : Option String
  suggestions : Option (List String)
  language : String
  status : Nat
deriving DecidableEq

/-- The `/api/chat` handler (src/app.py lines 344-390) together with the
append-only chat log: strip the message; an empty result is rejected with a
400 payload and the log untouched; otherwise internal whitespace runs are
collapsed, the response and suggestions are produced and the
(message, response) pair is appended to the log.  Log write failures are
swallowed by the source, so the log component models the successful-write
behaviour. -/
def chat (oracle : Oracle) (db : List (String × String)) (message language : String) :
    ChatResponse × List (String × String) :=
  if pyStrip message = "" then
    (⟨false, some "Empty message received", none, none, language, 400⟩, db)
  else
    (⟨true, none,
      some (get_ai_response oracle (pyCollapseWhitespace (pyStrip message)) language),
      some (generate_smart_suggestions (pyCollapseWhitespace (pyStrip message))
        (get_ai_response oracle (pyCollapseWhitespace (pyStrip message)) language) language),
      language, 200⟩,
     db ++ [(pyCollapseWhitespace (pyStrip message),
             get_ai_response oracle (pyCollapseWhitespace (pyStrip message)) language)])

/-- C8: an empty or whitespace-only message makes the chat endpoint return
success false with error "Empty message received" and a 4xx status (400),
with no response, no suggestions and the chat log unchanged. -/
theorem claim8_empty_message (oracle : Oracle) (db : List (String × String))
    (message language : String) (h : pyStrip message = "") :
    chat oracle db message language =
      (⟨false, some "Empty message received", none, none, language, 400⟩, db) ∧
    400 ≤ (chat oracle db message language).1.status ∧
    (chat oracle db message language).1.status < 500 := by
  have hc : chat oracle db message language =
      (⟨false, some "Empty message received", none, none, language, 400⟩, db) := by
    unfold chat
    rw [if_pos h]
  refine ⟨hc, ?_, ?_⟩
  · rw [hc]
  · rw [hc]
    exact (by decide : (400 : Nat) < 500)

/-- C8 witness: a whitespace-only message is rejected with the 400 payload
and leaves the log empty. -/
theorem claim8_witness :
    chat failOracle [] "   " "en" =
      (⟨false, some "Empty message received", none, none, "en", 400⟩, []) :=
  (claim8_empty_message failOracle [] "   " "en" (by decide)).1

/-- C9: suggestions are never translated and do not depend on the language:
for any two language codes (and any two candidate response texts fed to the
suggestion generator) the suggestion list is identical, as are the success
flag and the error field; only the response text may differ. -/
theorem claim9_suggestions_language_invariant (oracle : Oracle)
    (db : List (String × String)) (message r1 r2 l1 l2 : String) :
    generate_smart_suggestions message r1 l1 = generate_smart_suggestions message r2 l2 ∧
    (chat oracle db message l1).1.suggestions = (chat oracle db message l2).1.suggestions ∧
    (chat oracle db message l1).1.success = (chat oracle db message l2).1.success ∧
    (chat oracle db message l1).1.error = (chat oracle db message l2).1.error := by
  refine ⟨rfl, ?_, ?_, ?_⟩ <;>
    · unfold chat
      by_cases h : pyStrip message = ""
      · rw [if_pos h, if_pos h]
      · rw [if_neg h, if_neg h]
        try rfl
